import Mathlib

/-!
Verification of the SWANK road-dashboard backend.

Shallow embedding of the data-ingestion and query layer of the road-network
dashboard (Express + PostgreSQL backend in `server.js`, ingestion script in
`database/migrate_data.js`).

Modelling conventions:
* CSV cells, as delivered by `csv-parser`, are strings; a column absent from a
  row is JavaScript `undefined`, modelled as `none : Option String`.
* JavaScript `parseFloat` / `parseInt` are modelled by executable prefix
  parsers over `ℚ` / `ℤ` (optional sign, digits, optional decimal fraction,
  trailing garbage ignored, `none` for NaN).  The idiom `parseFloat(x) || 0`
  maps NaN and 0 (also -0) to 0, hence it is `(·.bind parseFloatQ).getD 0`;
  `parseInt(x) || null` maps NaN *and 0* to null.
* The `road_segments` table is modelled as a `List` of cleaned rows, in
  insertion order; SQL `LIMIT`/`OFFSET` become `take`/`drop` on that list.
* A transaction is modelled by running the statement sequence on a working
  copy of the table: `COMMIT` publishes the working copy, any statement
  failure triggers `ROLLBACK`, which leaves the committed table untouched.
  Whether an individual `INSERT` fails at the database level is environmental
  and is abstracted by a predicate on rows.
-/

namespace Swank

/-- Numeric value of a (non-empty) list of decimal digit characters. -/
def digitsVal (ds : List Char) : Nat :=
  ds.foldl (fun a c => 10 * a + (c.toNat - 48)) 0

/-- Model of JavaScript `parseInt(s)` (radix 10): optional sign followed by a
maximal run of digits; `none` models NaN (no digit at the front). Trailing
non-numeric characters are ignored, as in JavaScript. -/
def parseIntZ (s : String) : Option Int :=
  let core : List Char → Option Nat := fun cs =>
    let ds := cs.takeWhile Char.isDigit
    if ds.isEmpty then none else some (digitsVal ds)
  match s.toList.dropWhile Char.isWhitespace with
  | '-' :: rest => (core rest).map (fun n => -(n : Int))
  | '+' :: rest => (core rest).map (fun n => (n : Int))
  | cs => (core cs).map (fun n => (n : Int))

/-- Model of JavaScript `parseFloat(s)`: optional sign, integer digits,
optional `.` plus fraction digits; at least one digit must be present
(`parseFloat(".")` is NaN, modelled by `none`); trailing garbage ignored. -/
def parseFloatQ (s : String) : Option ℚ :=
  let core : List Char → Option (Int × Nat) := fun cs =>
    let ds := cs.takeWhile Char.isDigit
    let rest := cs.dropWhile Char.isDigit
    let fs := match rest with
      | '.' :: r => r.takeWhile Char.isDigit
      | _ => []
    if ds.isEmpty ∧ fs.isEmpty then none
    else some ((digitsVal ds * 10 ^ fs.length + digitsVal fs : Int), 10 ^ fs.length)
  match s.toList.dropWhile Char.isWhitespace with
  | '-' :: rest => (core rest).map (fun p => mkRat (-p.1) p.2)
  | '+' :: rest => (core rest).map (fun p => mkRat p.1 p.2)
  | cs => (core cs).map (fun p => mkRat p.1 p.2)

/-- `parseFloat(x) || 0`: an absent cell gives `parseFloat(undefined) = NaN`,
a failed parse gives NaN, and NaN, 0 and -0 are all falsy, so the whole
expression collapses to "parsed value, defaulting to 0". -/
def jsFloatOr0 (cell : Option String) : ℚ :=
  (cell.bind parseFloatQ).getD 0

/-- `parseInt(x) || 0`, analogously. -/
def jsIntOr0 (cell : Option String) : Int :=
  (cell.bind parseIntZ).getD 0

/-- `parseInt(x) || null`: NaN is falsy, but so is a parsed 0, hence both
become `null` (modelled as `none`). -/
def jsIntOrNull (cell : Option String) : Option Int :=
  match cell.bind parseIntZ with
  | none => none
  | some v => if v = 0 then none else some v

/-- `x || ''` on a string cell: `undefined` and `''` are falsy. -/
def jsStrOrEmpty (cell : Option String) : String :=
  cell.getD ""

/-- A raw CSV row as emitted by `csv-parser`: one optional string per column
referenced by `processCSV` (both copies, `server.js:46-74` and
`migrate_data.js:25-53`, read exactly these columns). -/
structure RawRow where
  OBJECTID : Option String := none
  ST_RT_NO : Option String := none
  CTY_CODE : Option String := none
  DISTRICT_NO : Option String := none
  SEG_NO : Option String := none
  SEG_LNGTH_FEET : Option String := none
  FAC_TYPE : Option String := none
  SURF_TYPE : Option String := none
  LANE_CNT : Option String := none
  TOTAL_WIDTH : Option String := none
  ROUGH_INDX : Option String := none
  FRICTN_COEFF : Option String := none
  PVMNT_COND_RATE : Option String := none
  CUR_AADT : Option String := none
  STREET_NAME : Option String := none
  TRAF_RT_NO : Option String := none
  X_VALUE_BGN : Option String := none
  Y_VALUE_BGN : Option String := none
  X_VALUE_END : Option String := none
  Y_VALUE_END : Option String := none
  SEGMENT_MILES : Option String := none
  LANE_MILES : Option String := none
  IRI_RATING_TEXT : Option String := none
  OPI_RATING_TEXT : Option String := none
  SURFACE_YEAR : Option String := none
  URBAN_RURAL : Option String := none
  NHS_IND : Option String := none
  deriving DecidableEq, Repr

/-- The `cleanData` record built per row by `processCSV`
(`server.js:46-74`, identical in `migrate_data.js:25-53`). -/
structure CleanRow where
  objectid : Option Int
  st_rt_no : String
  cty_code : String
  district_no : String
  seg_no : String
  seg_lngth_feet : ℚ
  fac_type : String
  surf_type : String
  lane_cnt : Int
  total_width : ℚ
  rough_indx : ℚ
  frictn_coeff : ℚ
  pvmnt_cond_rate : String
  cur_aadt : Int
  street_name : String
  traf_rt_no : String
  x_value_bgn : ℚ
  y_value_bgn : ℚ
  x_value_end : ℚ
  y_value_end : ℚ
  segment_miles : ℚ
  lane_miles : ℚ
  iri_rating_text : String
  opi_rating_text : String
  surface_year : Int
  urban_rural : String
  nhs_ind : String
  deriving DecidableEq, Repr

/-- The per-row cleaning step shared verbatim by both `processCSV` copies:
every numeric column goes through `parse... || 0` (or `|| null` for
`objectid`), every string column through `|| ''`. The step is total — no
input row is ever rejected here. -/
def cleanRow (d : RawRow) : CleanRow where
  objectid := jsIntOrNull d.OBJECTID
  st_rt_no := jsStrOrEmpty d.ST_RT_NO
  cty_code := jsStrOrEmpty d.CTY_CODE
  district_no := jsStrOrEmpty d.DISTRICT_NO
  seg_no := jsStrOrEmpty d.SEG_NO
  seg_lngth_feet := jsFloatOr0 d.SEG_LNGTH_FEET
  fac_type := jsStrOrEmpty d.FAC_TYPE
  surf_type := jsStrOrEmpty d.SURF_TYPE
  lane_cnt := jsIntOr0 d.LANE_CNT
  total_width := jsFloatOr0 d.TOTAL_WIDTH
  rough_indx := jsFloatOr0 d.ROUGH_INDX
  frictn_coeff := jsFloatOr0 d.FRICTN_COEFF
  pvmnt_cond_rate := jsStrOrEmpty d.PVMNT_COND_RATE
  cur_aadt := jsIntOr0 d.CUR_AADT
  street_name := jsStrOrEmpty d.STREET_NAME
  traf_rt_no := jsStrOrEmpty d.TRAF_RT_NO
  x_value_bgn := jsFloatOr0 d.X_VALUE_BGN
  y_value_bgn := jsFloatOr0 d.Y_VALUE_BGN
  x_value_end := jsFloatOr0 d.X_VALUE_END
  y_value_end := jsFloatOr0 d.Y_VALUE_END
  segment_miles := jsFloatOr0 d.SEGMENT_MILES
  lane_miles := jsFloatOr0 d.LANE_MILES
  iri_rating_text := jsStrOrEmpty d.IRI_RATING_TEXT
  opi_rating_text := jsStrOrEmpty d.OPI_RATING_TEXT
  surface_year := jsIntOr0 d.SURFACE_YEAR
  urban_rural := jsStrOrEmpty d.URBAN_RURAL
  nhs_ind := jsStrOrEmpty d.NHS_IND

/-- Keep-condition of `processCSV` in `server.js:76`:
`if (cleanData.x_value_bgn && cleanData.y_value_bgn)` — only the *begin*
coordinates are tested for truthiness (non-zero). -/
def serverKeep (c : CleanRow) : Bool :=
  c.x_value_bgn ≠ 0 && c.y_value_bgn ≠ 0

/-- Keep-condition of `processCSV` in `migrate_data.js:55`: all four
coordinates must be truthy (non-zero). -/
def migrateKeep (c : CleanRow) : Bool :=
  c.x_value_bgn ≠ 0 && c.y_value_bgn ≠ 0 && c.x_value_end ≠ 0 && c.y_value_end ≠ 0

/-- `processCSV` of `server.js:39-85` on a stream of parsed rows: clean each
row, keep those passing `serverKeep`, in stream order. -/
def serverProcessCSV (rows : List RawRow) : List CleanRow :=
  (rows.map cleanRow).filter serverKeep

/-- `processCSV` of `migrate_data.js:18-64`: same cleaning, but the filter
requires all four coordinates non-zero. -/
def migrateProcessCSV (rows : List RawRow) : List CleanRow :=
  (rows.map cleanRow).filter migrateKeep

/-! ## Bulk load as a single transaction

`loadCSVData` (`server.js:88-151`) and `insertRoadData`
(`migrate_data.js:67-210`) both run `BEGIN`, `DELETE FROM road_segments`,
one `INSERT` per row (iterated in batches of 1000, which only affects the
progress log), `COMMIT`; on any error they run `ROLLBACK` and rethrow. -/

/-- A SQL statement issued inside the bulk-load transaction. -/
inductive Stmt where
  | deleteAll : Stmt
  | insertRow : CleanRow → Stmt
  deriving DecidableEq, Repr

/-- Split a list into consecutive chunks of 1000 — the batching loop
`for (let i = 0; i < data.length; i += batchSize)` with
`data.slice(i, i + batchSize)` (`server.js:119-121`, `migrate_data.js:94-96`).
Structured with a fuel argument (one unit per loop iteration, bounded by the
list length) so that the definition computes by structural recursion. -/
def batchesGo (fuel : Nat) (l : List CleanRow) : List (List CleanRow) :=
  match fuel with
  | 0 => []
  | fuel + 1 =>
    if l.isEmpty then []
    else l.take 1000 :: batchesGo fuel (l.drop 1000)

def batches1000 (l : List CleanRow) : List (List CleanRow) :=
  batchesGo l.length l

/-- The statement sequence of one bulk-load transaction: delete everything,
then insert every row of every batch, in order. -/
def bulkLoadStmts (data : List CleanRow) : List Stmt :=
  Stmt.deleteAll :: ((batches1000 data).flatMap (fun b => b.map Stmt.insertRow))

/-- Run the statements on the transaction's working snapshot of the table.
`fails r = true` models the database rejecting that row's `INSERT`
(constraint violation, etc.); `Except.error` aborts the transaction. -/
def runStmts (fails : CleanRow → Bool) : List CleanRow → List Stmt → Except Unit (List CleanRow)
  | working, [] => Except.ok working
  | _, Stmt.deleteAll :: rest => runStmts fails [] rest
  | working, Stmt.insertRow r :: rest =>
      if fails r then Except.error ()
      else runStmts fails (working ++ [r]) rest

/-- Transactional execution against the committed table: `COMMIT` publishes
the working copy, a failure triggers `ROLLBACK`, leaving the committed table
exactly as before `BEGIN`. -/
def runTransaction (fails : CleanRow → Bool) (table : List CleanRow)
    (stmts : List Stmt) : List CleanRow :=
  match runStmts fails table stmts with
  | Except.ok working => working
  | Except.error _ => table

/-- `insertRoadData` (`migrate_data.js:67-210`): one transaction performing
delete-all then batched inserts of `data`, returning the resulting committed
table. -/
def insertRoadData (fails : CleanRow → Bool) (data table : List CleanRow) :
    List CleanRow :=
  runTransaction fails table (bulkLoadStmts data)

/-- The migration run (`migrate_data.js:213-246`, also re-run on demand):
process the CSV rows, then replace the table transactionally. -/
def migrateIngest (fails : CleanRow → Bool) (rows : List RawRow)
    (table : List CleanRow) : List CleanRow :=
  insertRoadData fails (migrateProcessCSV rows) table

/-- `loadCSVData` (`server.js:88-151`), run at startup and on every
file-watch change event: same delete-then-batched-insert transaction, fed by
the server's `processCSV`. -/
def loadCSVData (fails : CleanRow → Bool) (rows : List RawRow)
    (table : List CleanRow) : List CleanRow :=
  insertRoadData fails (serverProcessCSV rows) table

/-! ## GET /api/roads (`server.js:160-227`) -/

/-- The request's query parameters. A parameter absent from the query string
is `none`; JavaScript treats `''` as falsy, so `if (fac_type)` skips both
`none` and `some ""`. The numeric bounds are compared against the
`rough_indx` column after the database casts the text parameter, modelled
here as `Option ℚ`; `limit`/`offset` arrive through `parseInt` with defaults
10000 and 0. -/
structure RoadsQuery where
  fac_type : Option String := none
  surf_type : Option String := none
  district_no : Option String := none
  urban_rural : Option String := none
  min_condition : Option ℚ := none
  max_condition : Option ℚ := none
  limit : Nat := 10000
  offset : Nat := 0
  deriving Repr

/-- JavaScript truthiness of a query-string parameter. -/
def truthyStr : Option String → Bool
  | none => false
  | some s => !(s == "")

/-- The WHERE clause built by conditionally appending `AND col = $n`
(`server.js:187-215`): starts from `1=1` and conjoins one condition per
supplied (truthy) parameter. -/
def rowMatches (q : RoadsQuery) (r : CleanRow) : Bool :=
  (!truthyStr q.fac_type || (r.fac_type == q.fac_type.getD "")) &&
  (!truthyStr q.surf_type || (r.surf_type == q.surf_type.getD "")) &&
  (!truthyStr q.district_no || (r.district_no == q.district_no.getD "")) &&
  (!truthyStr q.urban_rural || (r.urban_rural == q.urban_rural.getD "")) &&
  (match q.min_condition with
   | none => true
   | some m => decide (m ≤ r.rough_indx)) &&
  (match q.max_condition with
   | none => true
   | some m => decide (r.rough_indx ≤ m))

/-- The handler's result set: the filtered table (no ORDER BY, so the
database's row order — modelled by the table list's order — is used), then
`OFFSET` skips and `LIMIT` caps (`server.js:217-222`). -/
def roadsHandler (q : RoadsQuery) (table : List CleanRow) : List CleanRow :=
  (((table.filter (rowMatches q)).drop q.offset).take q.limit)

/-! ## GET /api/statistics (`server.js:229-257`) -/

/-- The six statistic keys, in the iteration order of the `queries` object
literal (`server.js:231-238`). -/
def statisticsKeys : List String :=
  ["total_segments", "total_miles", "by_fac_type", "by_surf_type",
   "by_condition", "by_district"]

/-- `SELECT col, COUNT(*) ... GROUP BY col`: one row per distinct key with
its multiplicity (GROUP BY emits rows in an unspecified order; the model
uses `dedup` order). -/
def groupCount (key : CleanRow → String) (table : List CleanRow) :
    List (String × ℚ) :=
  ((table.map key).dedup).map (fun k => (k, ((table.map key).count k : ℚ)))

/-- The result rows of each fixed sub-query, per key (`server.js:232-237`).
Result rows are modelled as (column label, numeric value) pairs. -/
def statQuery (table : List CleanRow) : String → List (String × ℚ)
  | "total_segments" => [("count", (table.length : ℚ))]
  | "total_miles" => [("total", (table.map CleanRow.segment_miles).sum)]
  | "by_fac_type" => groupCount CleanRow.fac_type table
  | "by_surf_type" => groupCount CleanRow.surf_type table
  | "by_condition" =>
      groupCount CleanRow.iri_rating_text
        (table.filter (fun r => !(r.iri_rating_text == "")))
  | "by_district" => groupCount CleanRow.district_no table
  | _ => []

/-- The statistics handler (`server.js:240-252`): iterate the fixed keys; a
sub-query whose database call throws (`qfail k = true`) is caught per-key and
contributes `[]`; the response always carries every key. -/
def statisticsResult (qfail : String → Bool) (table : List CleanRow) :
    List (String × List (String × ℚ)) :=
  statisticsKeys.map (fun k => (k, if qfail k then [] else statQuery table k))

/-! ## GET /api/heatmap (`server.js:299-341`) -/

/-- A row of the `osm_roads` table, restricted to the columns the heatmap
queries touch: start-point coordinates of `geom`, `length_meters`, `lanes`
(nullable), `state`. -/
structure OsmRow where
  x_start : ℚ
  y_start : ℚ
  length_meters : ℚ
  lanes : Option Int
  state : String
  deriving DecidableEq, Repr

/-- A heatmap point: `x_value_bgn`, `y_value_bgn`, `value`. -/
structure HeatPoint where
  x : ℚ
  y : ℚ
  value : ℚ
  deriving DecidableEq, Repr

/-- Result set of the OSM-branch heatmap queries (`server.js:305-317`).
The `default` arm of the switch carries the same query text as the
`condition` arm (filter `length_meters > 0`, value `length_meters`), and in
every arm rows are restricted to `state` PA. -/
def heatmapOsm (table : List OsmRow) : String → List HeatPoint
  | "condition" =>
      (table.filter (fun r => decide (r.length_meters > 0) && (r.state == "PA"))).map
        (fun r => ⟨r.x_start, r.y_start, r.length_meters⟩)
  | "traffic" =>
      (table.filter (fun r => r.state == "PA")).map
        (fun r => ⟨r.x_start, r.y_start, ((r.lanes.getD 1 : Int) : ℚ)⟩)
  | "age" =>
      (table.filter (fun r => r.state == "PA")).map
        (fun r => ⟨r.x_start, r.y_start, r.length_meters⟩)
  | _ =>
      (table.filter (fun r => decide (r.length_meters > 0) && (r.state == "PA"))).map
        (fun r => ⟨r.x_start, r.y_start, r.length_meters⟩)

/-- Result set of the CSV-branch heatmap queries (`server.js:319-331`);
`year` is `EXTRACT(YEAR FROM CURRENT_DATE)`. -/
def heatmapCsv (year : Int) (table : List CleanRow) : String → List HeatPoint
  | "condition" =>
      (table.filter (fun r => decide (r.rough_indx > 0))).map
        (fun r => ⟨r.x_value_bgn, r.y_value_bgn, r.rough_indx⟩)
  | "traffic" =>
      (table.filter (fun r => decide (r.cur_aadt > 0))).map
        (fun r => ⟨r.x_value_bgn, r.y_value_bgn, (r.cur_aadt : ℚ)⟩)
  | "age" =>
      (table.filter (fun r => decide (r.surface_year > 0))).map
        (fun r => ⟨r.x_value_bgn, r.y_value_bgn, ((year - r.surface_year : Int) : ℚ)⟩)
  | _ =>
      (table.filter (fun r => decide (r.rough_indx > 0))).map
        (fun r => ⟨r.x_value_bgn, r.y_value_bgn, r.rough_indx⟩)

/-- The heatmap handler: `data_source === 'osm'` selects the OSM branch,
anything else the CSV branch (`server.js:304,318`). -/
def heatmapHandler (dataSource typ : String) (year : Int)
    (osmTable : List OsmRow) (csvTable : List CleanRow) : List HeatPoint :=
  if dataSource == "osm" then heatmapOsm osmTable typ
  else heatmapCsv year csvTable typ

/-! ## POST /api/upload (`server.js:346-388`) -/

/-- An HTTP response: status code and the JSON payload's message/error text. -/
structure HttpResponse where
  status : Nat
  body : String
  deriving DecidableEq, Repr

/-- The upload handler. With no file it returns 400 (`server.js:348-350`).
With a file, `processCSV` succeeds, and then `db.run('DELETE FROM
road_segments')` (`server.js:355`) evaluates the identifier `db`, which is
declared nowhere in `server.js` (the database handle is `pool`); JavaScript
throws `ReferenceError: db is not defined`, the surrounding `try/catch`
catches it and answers 500 with the error's message (`server.js:385-387`).
The delete/insert/success path (`server.js:355-384`) is unreachable. -/
def uploadHandler (file : Option (List RawRow)) : HttpResponse :=
  match file with
  | none => ⟨400, "No file uploaded"⟩
  | some rows =>
      let _data := serverProcessCSV rows
      ⟨500, "db is not defined"⟩

/-! ## Concrete sample data, used to exercise the definitions -/

/-- A CSV row with valid begin coordinates and both end coordinates `0`. -/
def rawZeroEnd : RawRow :=
  { X_VALUE_BGN := some "40.1", Y_VALUE_BGN := some "-75.3",
    X_VALUE_END := some "0", Y_VALUE_END := some "0" }

/-- A CSV row whose `OBJECTID` cell does not parse as an integer. -/
def rawBadObjectid : RawRow :=
  { OBJECTID := some "N/A" }

/-- A CSV row with every expected column missing. -/
def rawEmpty : RawRow := {}

/-- A fully-coordinate-carrying segment with a given street name. -/
def segNamed (street : String) : CleanRow :=
  cleanRow { STREET_NAME := some street,
             X_VALUE_BGN := some "1", Y_VALUE_BGN := some "1",
             X_VALUE_END := some "2", Y_VALUE_END := some "2" }

/-- A segment with facility type 1, surface type 52 and roughness 3. -/
def segTyped : CleanRow :=
  cleanRow { FAC_TYPE := some "1", SURF_TYPE := some "52",
             ROUGH_INDX := some "3",
             X_VALUE_BGN := some "1", Y_VALUE_BGN := some "1",
             X_VALUE_END := some "2", Y_VALUE_END := some "2" }

/-! ## Helper lemmas -/

theorem batchesGo_flatMap (fuel : Nat) (l : List CleanRow) (h : l.length ≤ fuel) :
    (batchesGo fuel l).flatMap (fun b => b) = l := by
  induction fuel generalizing l with
  | zero =>
    cases l with
    | nil => simp [batchesGo]
    | cons a t => simp at h
  | succ n ih =>
    rw [batchesGo]
    by_cases hl : l.isEmpty
    · rw [List.isEmpty_iff] at hl
      simp [hl]
    · rw [if_neg hl, List.flatMap_cons,
        ih (l.drop 1000) (by
          rw [List.length_drop]
          omega),
        List.take_append_drop]

theorem batches1000_flatMap (l : List CleanRow) :
    (batches1000 l).flatMap (fun b => b) = l :=
  batchesGo_flatMap l.length l le_rfl

theorem runStmts_insertRows (fails : CleanRow → Bool) (acc : List CleanRow)
    (l : List CleanRow) :
    runStmts fails acc (l.map Stmt.insertRow) =
      if l.any fails then Except.error () else Except.ok (acc ++ l) := by
  induction l generalizing acc with
  | nil => simp [runStmts]
  | cons r t ih =>
    by_cases h : fails r
    · simp [runStmts, h]
    · simp [runStmts, h, ih]

/-- Characterization of the bulk-load transaction: if any row's insert fails
the committed table is untouched, otherwise the table becomes exactly the
input row set. -/
theorem insertRoadData_eq (fails : CleanRow → Bool) (data table : List CleanRow) :
    insertRoadData fails data table = if data.any fails then table else data := by
  have hflat : (batches1000 data).flatMap (fun b => b.map Stmt.insertRow) =
      data.map Stmt.insertRow := by
    rw [← List.map_flatMap, batches1000_flatMap]
  unfold insertRoadData runTransaction bulkLoadStmts
  rw [hflat]
  have hdel : runStmts fails table (Stmt.deleteAll :: data.map Stmt.insertRow) =
      runStmts fails [] (data.map Stmt.insertRow) := by
    rw [runStmts]
  rw [hdel, runStmts_insertRows]
  by_cases h : data.any fails <;> simp [h]

/-! ## Claim theorems -/

/-- C5: the CSV bulk-load runs as a single transaction (delete all, insert
all in fixed-size batches, commit); if any insert fails the entire
transaction is rolled back, leaving `road_segments` in exactly its pre-load
state, and otherwise the table is exactly the loaded row set. Stated for the
transaction core `insertRoadData` and for both CSV entry points wrapping it. -/
theorem csv_bulkLoad_transactional_rollback (fails : CleanRow → Bool)
    (data table : List CleanRow) (rows : List RawRow) :
    (insertRoadData fails data table = if data.any fails then table else data) ∧
    (migrateIngest fails rows table =
      if (migrateProcessCSV rows).any fails then table else migrateProcessCSV rows) ∧
    (loadCSVData fails rows table =
      if (serverProcessCSV rows).any fails then table else serverProcessCSV rows) :=
  ⟨insertRoadData_eq fails data table,
   insertRoadData_eq fails (migrateProcessCSV rows) table,
   insertRoadData_eq fails (serverProcessCSV rows) table⟩

/-- C4: re-running the CSV ingestion (delete-all then bulk-insert) a second
time on the same input leaves `road_segments` identical — in particular with
the same row count — whether through the migration script or the server's
loader. -/
theorem csv_ingestion_idempotent (fails : CleanRow → Bool) (rows : List RawRow)
    (table : List CleanRow) :
    (migrateIngest fails rows (migrateIngest fails rows table) =
      migrateIngest fails rows table) ∧
    (loadCSVData fails rows (loadCSVData fails rows table) =
      loadCSVData fails rows table) ∧
    ((migrateIngest fails rows (migrateIngest fails rows table)).length =
      (migrateIngest fails rows table).length) ∧
    ((loadCSVData fails rows (loadCSVData fails rows table)).length =
      (loadCSVData fails rows table).length) := by
  have hm : migrateIngest fails rows (migrateIngest fails rows table) =
      migrateIngest fails rows table := by
    simp only [migrateIngest, insertRoadData_eq]
    by_cases h : (migrateProcessCSV rows).any fails <;> simp [h]
  have hs : loadCSVData fails rows (loadCSVData fails rows table) =
      loadCSVData fails rows table := by
    simp only [loadCSVData, insertRoadData_eq]
    by_cases h : (serverProcessCSV rows).any fails <;> simp [h]
  exact ⟨hm, hs, congrArg List.length hm, congrArg List.length hs⟩

/-- C1 counterexample: a CSV row whose end coordinates are both `0` but whose
begin coordinates are non-zero is kept by the server's CSV processing step
and persisted by the server's loader — the four-coordinate invariant fails on
the server ingestion paths. -/
theorem zero_end_coordinate_persisted :
    (serverProcessCSV [rawZeroEnd]).map CleanRow.x_value_end = [0] ∧
    (loadCSVData (fun _ => false) [rawZeroEnd] []).map CleanRow.x_value_end = [0] := by
  decide

/-- C1 amended: the migration script's `processCSV` keeps a cleaned row iff
all four coordinates are non-zero, but the server's `processCSV` (startup
load, file-watch reload, upload) keeps a row iff only the two *begin*
coordinates are non-zero; a row with zero end coordinates can be persisted
by the server paths. -/
theorem processCSV_coordinate_filter (rows : List RawRow) (r : CleanRow) :
    (r ∈ migrateProcessCSV rows ↔
      r ∈ rows.map cleanRow ∧
        (r.x_value_bgn ≠ 0 ∧ r.y_value_bgn ≠ 0 ∧ r.x_value_end ≠ 0 ∧ r.y_value_end ≠ 0)) ∧
    (r ∈ serverProcessCSV rows ↔
      r ∈ rows.map cleanRow ∧ (r.x_value_bgn ≠ 0 ∧ r.y_value_bgn ≠ 0)) := by
  constructor <;>
    simp [migrateProcessCSV, serverProcessCSV, List.mem_filter, migrateKeep, serverKeep,
      and_assoc]

/-- C2: a POST /api/upload with no file is answered 400; a request with a
parseable CSV file never reaches the delete/reinsert/success path, because
the handler's `db.run(...)` references the undefined identifier `db` and the
resulting ReferenceError is caught and answered as a 500 error payload. -/
theorem upload_with_file_throws_db_undefined :
    uploadHandler (some [{ X_VALUE_BGN := some "1", Y_VALUE_BGN := some "1" }]) =
      { status := 500, body := "db is not defined" } ∧
    uploadHandler none = { status := 400, body := "No file uploaded" } := by
  decide

/-- C3: for every data source, a GET /api/heatmap with an unknown metric
type takes the switch's default arm, whose query is the `condition` arm's
query, so the result set equals that of `type=condition`. -/
theorem heatmap_unknown_type_falls_back (ds t : String) (year : Int)
    (osmT : List OsmRow) (csvT : List CleanRow)
    (h1 : t ≠ "condition") (h2 : t ≠ "traffic") (h3 : t ≠ "age") :
    heatmapHandler ds t year osmT csvT = heatmapHandler ds "condition" year osmT csvT := by
  unfold heatmapHandler
  by_cases hds : (ds == "osm") = true
  · rw [if_pos hds, if_pos hds]
    unfold heatmapOsm
    split <;> simp_all
  · rw [if_neg hds, if_neg hds]
    unfold heatmapCsv
    split <;> simp_all

/-- Witness for C3 at `type=bogus`, `data_source=csv`, on a one-row table. -/
theorem heatmap_fallback_witness :
    heatmapHandler "csv" "bogus" 2025 [] [segTyped] =
      heatmapHandler "csv" "condition" 2025 [] [segTyped] :=
  heatmap_unknown_type_falls_back "csv" "bogus" 2025 [] [segTyped]
    (by decide) (by decide) (by decide)

/-- C6: for every GET /api/roads request, the response holds at most `limit`
rows, and its `i`-th row is the `(offset + i)`-th row of the filtered result
set in the underlying (deterministic, in this model) row order. -/
theorem roads_limit_offset_pagination (q : RoadsQuery) (table : List CleanRow) :
    (roadsHandler q table).length ≤ q.limit ∧
    ∀ i : Nat, i < (roadsHandler q table).length →
      (roadsHandler q table)[i]? = (table.filter (rowMatches q))[q.offset + i]? := by
  constructor
  · unfold roadsHandler
    rw [List.length_take]
    exact min_le_left _ _
  · intro i hi
    have hlen : i < q.limit := by
      unfold roadsHandler at hi
      rw [List.length_take] at hi
      omega
    unfold roadsHandler
    rw [List.getElem?_take_of_lt hlen, List.getElem?_drop]

/-- Witness for C6 with `limit=2, offset=1` on a four-row table. -/
theorem roads_pagination_witness :
    (roadsHandler { limit := 2, offset := 1 }
        [segNamed "a", segNamed "b", segNamed "c", segNamed "d"]).length ≤ 2 ∧
    (roadsHandler { limit := 2, offset := 1 }
        [segNamed "a", segNamed "b", segNamed "c", segNamed "d"])[0]? =
      ([segNamed "a", segNamed "b", segNamed "c", segNamed "d"].filter
        (rowMatches { limit := 2, offset := 1 }))[1 + 0]? :=
  ⟨(roads_limit_offset_pagination { limit := 2, offset := 1 }
      [segNamed "a", segNamed "b", segNamed "c", segNamed "d"]).1,
   (roads_limit_offset_pagination { limit := 2, offset := 1 }
      [segNamed "a", segNamed "b", segNamed "c", segNamed "d"]).2 0 (by decide)⟩

/-- C7: the /api/roads filters combine conjunctively — every returned row
satisfies each supplied filter — and a filter set matched by no row yields an
empty array (the handler performs no validation and raises no error). -/
theorem roads_filters_conjunctive (q : RoadsQuery) (table : List CleanRow)
    (r : CleanRow) :
    (r ∈ roadsHandler q table →
      (truthyStr q.fac_type = true → r.fac_type = q.fac_type.getD "") ∧
      (truthyStr q.surf_type = true → r.surf_type = q.surf_type.getD "") ∧
      (truthyStr q.district_no = true → r.district_no = q.district_no.getD "") ∧
      (truthyStr q.urban_rural = true → r.urban_rural = q.urban_rural.getD "") ∧
      (∀ m : ℚ, q.min_condition = some m → m ≤ r.rough_indx) ∧
      (∀ m : ℚ, q.max_condition = some m → r.rough_indx ≤ m)) ∧
    ((∀ s ∈ table, rowMatches q s = false) → roadsHandler q table = []) := by
  constructor
  · intro hr
    have hmem : r ∈ table.filter (rowMatches q) := by
      unfold roadsHandler at hr
      exact List.Sublist.mem hr
        ((List.take_sublist _ _).trans (List.drop_sublist _ _))
    rw [List.mem_filter] at hmem
    obtain ⟨-, hmatch⟩ := hmem
    unfold rowMatches at hmatch
    simp only [Bool.and_eq_true] at hmatch
    obtain ⟨⟨⟨⟨⟨hf, hs⟩, hd⟩, hu⟩, hmin⟩, hmax⟩ := hmatch
    refine ⟨?_, ?_, ?_, ?_, ?_, ?_⟩
    · intro ht; rw [ht] at hf; simpa using hf
    · intro ht; rw [ht] at hs; simpa using hs
    · intro ht; rw [ht] at hd; simpa using hd
    · intro ht; rw [ht] at hu; simpa using hu
    · intro m hm; rw [hm] at hmin; simpa using hmin
    · intro m hm; rw [hm] at hmax; simpa using hmax
  · intro hnone
    unfold roadsHandler
    rw [List.filter_eq_nil_iff.mpr (fun a ha => by simp [hnone a ha])]
    simp

/-- Witness for C7: a row matching `fac_type=1&surf_type=52` and condition
bounds is returned satisfying all four, and a `fac_type` matching nothing
yields `[]`. -/
theorem roads_filters_witness :
    segTyped.fac_type = "1" ∧ segTyped.surf_type = "52" ∧
    (2 : ℚ) ≤ segTyped.rough_indx ∧ segTyped.rough_indx ≤ (5 : ℚ) ∧
    roadsHandler { fac_type := some "9" } [segTyped] = [] := by
  have h := (roads_filters_conjunctive
      { fac_type := some "1", surf_type := some "52",
        min_condition := some 2, max_condition := some 5 } [segTyped] segTyped).1
    (by decide)
  exact ⟨h.1 (by decide), h.2.1 (by decide), h.2.2.2.2.1 2 rfl, h.2.2.2.2.2 5 rfl,
    (roads_filters_conjunctive { fac_type := some "9" } [segTyped] segTyped).2
      (by decide)⟩

/-- C8: GET /api/statistics always answers with every one of the six fixed
statistic keys, in order; a key whose sub-query fails is mapped to the empty
array while the request still succeeds. -/
theorem statistics_keys_complete_with_degradation (qfail : String → Bool)
    (table : List CleanRow) :
    ((statisticsResult qfail table).map Prod.fst = statisticsKeys) ∧
    (∀ p ∈ statisticsResult qfail table, qfail p.1 = true → p.2 = []) := by
  constructor
  · unfold statisticsResult
    rw [List.map_map]
    exact List.map_id statisticsKeys
  · intro p hp hq
    simp only [statisticsResult, List.mem_map] at hp
    obtain ⟨k, hk, rfl⟩ := hp
    simp only at hq ⊢
    simp [hq]

/-- Witness for C8 with a failing `by_condition` sub-query. -/
theorem statistics_degradation_witness :
    ((statisticsResult (fun k => k == "by_condition") []).map Prod.fst =
      statisticsKeys) ∧
    (("by_condition", ([] : List (String × ℚ))).2 = []) :=
  ⟨(statistics_keys_complete_with_degradation (fun k => k == "by_condition") []).1,
   (statistics_keys_complete_with_degradation (fun k => k == "by_condition") []).2
     ("by_condition", []) (by decide) (by decide)⟩

/-- C9 counterexample: a row whose `OBJECTID` fails to parse gets `objectid`
`null` (not zero) — `parseInt(data.OBJECTID) || null` defaults to null, while
the claim says every failed numeric coercion defaults to zero. -/
theorem objectid_parse_failure_yields_null :
    (cleanRow rawBadObjectid).objectid = none ∧
    (cleanRow rawBadObjectid).objectid ≠ some 0 := by
  decide

/-- C9 amended: the per-row cleaning step never rejects a row for a
malformed field — every numeric column other than `objectid` defaults to
zero when its cell fails to parse, `objectid` defaults to null, every
missing string column defaults to the empty string, and whether the row is
kept depends only on the coordinate filter, not on any parse failure. -/
theorem row_cleaning_never_rejects (d : RawRow) :
    (d.OBJECTID.bind parseIntZ = none → (cleanRow d).objectid = none) ∧
    (d.SEG_LNGTH_FEET.bind parseFloatQ = none → (cleanRow d).seg_lngth_feet = 0) ∧
    (d.LANE_CNT.bind parseIntZ = none → (cleanRow d).lane_cnt = 0) ∧
    (d.TOTAL_WIDTH.bind parseFloatQ = none → (cleanRow d).total_width = 0) ∧
    (d.ROUGH_INDX.bind parseFloatQ = none → (cleanRow d).rough_indx = 0) ∧
    (d.FRICTN_COEFF.bind parseFloatQ = none → (cleanRow d).frictn_coeff = 0) ∧
    (d.CUR_AADT.bind parseIntZ = none → (cleanRow d).cur_aadt = 0) ∧
    (d.X_VALUE_BGN.bind parseFloatQ = none → (cleanRow d).x_value_bgn = 0) ∧
    (d.Y_VALUE_BGN.bind parseFloatQ = none → (cleanRow d).y_value_bgn = 0) ∧
    (d.X_VALUE_END.bind parseFloatQ = none → (cleanRow d).x_value_end = 0) ∧
    (d.Y_VALUE_END.bind parseFloatQ = none → (cleanRow d).y_value_end = 0) ∧
    (d.SEGMENT_MILES.bind parseFloatQ = none → (cleanRow d).segment_miles = 0) ∧
    (d.LANE_MILES.bind parseFloatQ = none → (cleanRow d).lane_miles = 0) ∧
    (d.SURFACE_YEAR.bind parseIntZ = none → (cleanRow d).surface_year = 0) ∧
    (d.ST_RT_NO = none → (cleanRow d).st_rt_no = "") ∧
    (d.CTY_CODE = none → (cleanRow d).cty_code = "") ∧
    (d.DISTRICT_NO = none → (cleanRow d).district_no = "") ∧
    (d.SEG_NO = none → (cleanRow d).seg_no = "") ∧
    (d.FAC_TYPE = none → (cleanRow d).fac_type = "") ∧
    (d.SURF_TYPE = none → (cleanRow d).surf_type = "") ∧
    (d.PVMNT_COND_RATE = none → (cleanRow d).pvmnt_cond_rate = "") ∧
    (d.STREET_NAME = none → (cleanRow d).street_name = "") ∧
    (d.TRAF_RT_NO = none → (cleanRow d).traf_rt_no = "") ∧
    (d.IRI_RATING_TEXT = none → (cleanRow d).iri_rating_text = "") ∧
    (d.OPI_RATING_TEXT = none → (cleanRow d).opi_rating_text = "") ∧
    (d.URBAN_RURAL = none → (cleanRow d).urban_rural = "") ∧
    (d.NHS_IND = none → (cleanRow d).nhs_ind = "") ∧
    (cleanRow d ∈ serverProcessCSV [d] ↔ serverKeep (cleanRow d) = true) ∧
    (cleanRow d ∈ migrateProcessCSV [d] ↔ migrateKeep (cleanRow d) = true) := by
  refine ⟨?_, ?_, ?_, ?_, ?_, ?_, ?_, ?_, ?_, ?_, ?_, ?_, ?_, ?_, ?_, ?_, ?_, ?_,
    ?_, ?_, ?_, ?_, ?_, ?_, ?_, ?_, ?_, ?_, ?_⟩ <;>
  first
    | (intro h;
       simp [cleanRow, jsIntOrNull, jsFloatOr0, jsIntOr0, jsStrOrEmpty, h])
    | simp [serverProcessCSV, migrateProcessCSV, List.mem_filter]

/-- Witness for C9 on the row with every column missing. -/
theorem row_cleaning_witness :
    (cleanRow rawEmpty).objectid = none ∧
    (cleanRow rawEmpty).seg_lngth_feet = 0 ∧
    (cleanRow rawEmpty).lane_cnt = 0 ∧
    (cleanRow rawEmpty).total_width = 0 ∧
    (cleanRow rawEmpty).rough_indx = 0 ∧
    (cleanRow rawEmpty).frictn_coeff = 0 ∧
    (cleanRow rawEmpty).cur_aadt = 0 ∧
    (cleanRow rawEmpty).x_value_bgn = 0 ∧
    (cleanRow rawEmpty).y_value_bgn = 0 ∧
    (cleanRow rawEmpty).x_value_end = 0 ∧
    (cleanRow rawEmpty).y_value_end = 0 ∧
    (cleanRow rawEmpty).segment_miles = 0 ∧
    (cleanRow rawEmpty).lane_miles = 0 ∧
    (cleanRow rawEmpty).surface_year = 0 ∧
    (cleanRow rawEmpty).st_rt_no = "" ∧
    (cleanRow rawEmpty).cty_code = "" ∧
    (cleanRow rawEmpty).district_no = "" ∧
    (cleanRow rawEmpty).seg_no = "" ∧
    (cleanRow rawEmpty).fac_type = "" ∧
    (cleanRow rawEmpty).surf_type = "" ∧
    (cleanRow rawEmpty).pvmnt_cond_rate = "" ∧
    (cleanRow rawEmpty).street_name = "" ∧
    (cleanRow rawEmpty).traf_rt_no = "" ∧
    (cleanRow rawEmpty).iri_rating_text = "" ∧
    (cleanRow rawEmpty).opi_rating_text = "" ∧
    (cleanRow rawEmpty).urban_rural = "" ∧
    (cleanRow rawEmpty).nhs_ind = "" ∧
    (cleanRow rawEmpty ∈ serverProcessCSV [rawEmpty] ↔
      serverKeep (cleanRow rawEmpty) = true) ∧
    (cleanRow rawEmpty ∈ migrateProcessCSV [rawEmpty] ↔
      migrateKeep (cleanRow rawEmpty) = true) := by
  obtain ⟨h1, h2, h3, h4, h5, h6, h7, h8, h9, h10, h11, h12, h13, h14, h15, h16,
    h17, h18, h19, h20, h21, h22, h23, h24, h25, h26, h27, h28, h29⟩ :=
    row_cleaning_never_rejects rawEmpty
  exact ⟨h1 rfl, h2 rfl, h3 rfl, h4 rfl, h5 rfl, h6 rfl, h7 rfl, h8 rfl, h9 rfl,
    h10 rfl, h11 rfl, h12 rfl, h13 rfl, h14 rfl, h15 rfl, h16 rfl, h17 rfl,
    h18 rfl, h19 rfl, h20 rfl, h21 rfl, h22 rfl, h23 rfl, h24 rfl, h25 rfl,
    h26 rfl, h27 rfl, h28, h29⟩

/-- C10: on the OSM data source neither the `age` nor the `condition` metric
computes an age — both use `length_meters` as the point value — and the
`condition` result set is exactly the `age` result set restricted to points
with positive value, hence a subset of it. -/
theorem osm_age_superset_of_condition (table : List OsmRow) :
    ((heatmapOsm table "age").map HeatPoint.value =
      (table.filter (fun r => r.state == "PA")).map OsmRow.length_meters) ∧
    (heatmapOsm table "condition" =
      (heatmapOsm table "age").filter (fun p => decide (p.value > 0))) ∧
    (heatmapOsm table "condition").Sublist (heatmapOsm table "age") := by
  have h2 : heatmapOsm table "condition" =
      (heatmapOsm table "age").filter (fun p => decide (p.value > 0)) := by
    show (table.filter (fun r => decide (r.length_meters > 0) && (r.state == "PA"))).map
        (fun r => ⟨r.x_start, r.y_start, r.length_meters⟩) =
      ((table.filter (fun r => r.state == "PA")).map
        (fun r => (⟨r.x_start, r.y_start, r.length_meters⟩ : HeatPoint))).filter
        (fun p => decide (p.value > 0))
    rw [List.filter_map, List.filter_filter]
    rfl
  refine ⟨?_, h2, ?_⟩
  · show ((table.filter (fun r => r.state == "PA")).map
        (fun r => (⟨r.x_start, r.y_start, r.length_meters⟩ : HeatPoint))).map
        HeatPoint.value = _
    rw [List.map_map]
    rfl
  · rw [h2]
    exact List.filter_sublist _

end Swank
